import Mathlib

set_option maxRecDepth 8000

namespace SteamDocs

/-- The 505 lines of src/docs/leaderboards.js, verbatim. -/
def leaderboards_lines : List String := [
  "// FUNCTIONS",
  "",
  "/**",
  " * @func steam_create_leaderboard",
  " * @desc With this function you can create a new leaderboard for your game. The first argument is a string which defines the name of your leaderboard, and this name should be used in any further function calls relating to the leaderboard being created. You can then define the sort order (see $\x7bconstant.LeaderboardSortOrder\x7d constants) as well as the way in which the information is displayed (see $\x7bconstant.LeaderboardDisplayType\x7d constants).",
  " * ",
  " * [[NOTE: If you have previously created a leaderboard with the same name (either through code or through your Steam page for the game), then this function will not create a new one.]]",
  " * ",
  " * @param \x7bstring\x7d lb_name The name of the leaderboard that you are creating",
  " * @param \x7bconstant.LeaderboardSortOrder\x7d sort_order The method for sorting the leaderboard entries",
  " * @param \x7bconstant.LeaderboardDisplayType\x7d display_type The way to display the leaderboard to the user",
  " * ",
  " * @returns \x7breal\x7d",
  " * ",
  " * @event steam",
  " * @member \x7breal\x7d id The asynchronous request ID",
  " * @member \x7bstring\x7d event_type The string value `\"create_leaderboard\"`",
  " * @member \x7breal\x7d status The status code, `0` if the leaderboard was created and `1` if it already existed",
  " * @member \x7bstring\x7d lb_name The name of the leaderboard",
  " * @event_end",
  " * ",
  " * @example",
  " * ```gml",
  " * steam_create_leaderboard(\"Game Times\", lb_sort_ascending, lb_disp_time_sec);",
  " * ```",
  " * The above code will create a leaderboard called \"Game Times\", and set it to display the results in ascending order and with a display in seconds.",
  " * @func_end",
  " */",
  "",
  "/**",
  " * @func steam_upload_score",
  " * @desc This function will send a score to the given leaderboard. The score to be uploaded is a real number, and the leaderboard name is a string that was defined when you created the leaderboard using the function $\x7bfunction.steam_create_leaderboard\x7d. ",
  " * ",
  " * [[NOTE: If the function call fails for any reason it will return -1 and the Async event will not be triggered.]]",
  " * ",
  " * @param \x7bstring\x7d lb_name The name of the leaderboard that you are uploading the scores to",
  " * @param \x7breal\x7d score The score to upload",
  " * ",
  " * @returns \x7breal\x7d",
  " * ",
  " * @event steam",
  " * @member \x7breal\x7d post_id The asynchronous request ID",
  " * @member \x7bstring\x7d event_type The string value `\"leaderboard_upload\"`",
  " * @member \x7bstring\x7d lb_name The name of the leaderboard",
  " * @member \x7breal\x7d num_entries The number of returned entries",
  " * @member \x7bboolean\x7d success Whether or not the request was successful",
  " * @member \x7bboolean\x7d updated Whether or not the leaderboard was updated (i.e.: the new score was better)",
  " * @member \x7breal\x7d score The score that was posted to the leaderboard",
  " * @event_end",
  " * ",
  " * @example",
  " * In this example, we first upload a score and then parse the `async_load` map returned if successful. The code below shows a typical example for uploading:",
  " * ",
  " * ```gml",
  " * if (hp <= 0)",
  " * \x7b",
  " *     upload_ID = steam_upload_score(\"Game Scores\", score);",
  " *     if (!upload_ID)",
  " *     \x7b",
  " *         alarm[0] = game_get_speed(gamespeed_fps);",
  " *     \x7d",
  " * \x7d",
  " * ```",
  " * Note that we have set an alarm if the call fails. This would be used to try the upload again at a later time and you can add extra code there to retry the upload or to save the score to a text file should it continue to fail, etc. We now add the following into the $\x7bevent.steam\x7d for the instance controlling the scores:",
  " * ",
  " * ```gml",
  " * var _type = ds_map_find_value(async_load, \"event_type\");",
  " * if (_type == \"leaderboard_upload\")",
  " * \x7b",
  " *     var _lb_ID = ds_map_find_value(async_load, \"post_id\");",
  " *     if _lb_ID == upload_ID",
  " *     \x7b",
  " *         var _lb_name = ds_map_find_value(async_load, \"lb_name\");",
  " *         var _lb_done = ds_map_find_value(async_load, \"success\");",
  " *         var _lb_score = ds_map_find_value(async_load, \"score\");",
  " *         var _lb_updated = ds_map_find_value(async_load, \"updated\");",
  " *         show_debug_message(\"leaderboard post ID:\" + string(_lb_ID) + \" to lb:\" + string(_lb_name) + \" with score:\" + string(_lb_score) + \" updated=\" + string(_lb_updated));",
  " *         if (_lb_done)",
  " *         \x7b",
  " *             show_debug_message(\"- Succeeded\");",
  " *         \x7d",
  " *         else",
  " *         \x7b",
  " *             show_debug_message(\"- Failed\");",
  " *         \x7d",
  " *     \x7d",
  " * \x7d",
  " * ```",
  " * In the example we are simply outputting the return values to the compiler window as debug messages, but you can use this event to deal with the information in any way you choose.",
  " * @func_end",
  " */",
  "",
  "/**",
  " * @func steam_upload_score_ext",
  " * @desc This function will send a score to the given leaderboard. It is similar to the function $\x7bfunction.steam_upload_score\x7d but has an extra argument that will allow you to force the update of the score, as by default Steam only updates the score if it is better than the previous one.",
  " * ",
  " * [[NOTE: If the function call fails for any reason it will return -1 and the Async event will not be triggered.]]",
  " * ",
  " * @param \x7bstring\x7d lb_name The name of the leaderboard that you are uploading the scores to",
  " * @param \x7breal\x7d score The score to upload",
  " * @param \x7bboolean\x7d force_update Whether or not the value should be replaced",
  " * ",
  " * @returns \x7breal\x7d",
  " * ",
  " * @event steam",
  " * @member \x7breal\x7d post_id The asynchronous request ID",
  " * @member \x7bstring\x7d event_type The string value `\"leaderboard_upload\"`",
  " * @member \x7bstring\x7d lb_name The name of the leaderboard",
  " * @member \x7breal\x7d num_entries The number of returned entries",
  " * @member \x7bboolean\x7d success Whether or not the request was successful",
  " * @member \x7bboolean\x7d updated Whether or not the leaderboard was updated (i.e.: the new score was better or `forceUpdate` was set to `true`)",
  " * @member \x7breal\x7d score The score that was posted to the leaderboard",
  " * @event_end",
  " * ",
  " * @example",
  " * In this example, we first upload a score and then parse the `async_load` map returned if successful. The code below shows a typical example for uploading:",
  " * ",
  " * ```gml",
  " * if (hp <= 0)",
  " * \x7b",
  " *     upload_ID = steam_upload_score_ext(\"Game Scores\", score, true);",
  " *     if (!upload_ID)",
  " *     \x7b",
  " *         alarm[0] = game_get_speed(gamespeed_fps);",
  " *     \x7d",
  " * \x7d",
  " * ```",
  " * Note that we have set an alarm if the call fails. This would be used to try the upload again at a later time and you can add extra code there to retry the upload or to save the score to a text file should it continue to fail, etc. We now add the following into the $\x7bevent.steam\x7d for the instance controlling the scores:",
  " * ",
  " * ```gml",
  " * var _type = ds_map_find_value(async_load, \"event_type\");",
  " * if (_type == \"leaderboard_upload\")",
  " * \x7b",
  " *     var _lb_ID = ds_map_find_value(async_load, \"post_id\");",
  " *     if _lb_ID == upload_ID",
  " *     \x7b",
  " *         var _lb_name = ds_map_find_value(async_load, \"lb_name\");",
  " *         var _lb_done = ds_map_find_value(async_load, \"success\");",
  " *         var _lb_score = ds_map_find_value(async_load, \"score\");",
  " *         var _lb_updated = ds_map_find_value(async_load, \"updated\");",
  " *         show_debug_message(\"leaderboard post id:\" + string(_lb_ID) + \" to lb:\" + string(_lb_name) + \" with score:\" + string(_lb_score) + \" updated=\" + string(_lb_updated));",
  " *         if (_lb_done)",
  " *         \x7b",
  " *             show_debug_message(\"- Succeeded\");",
  " *         \x7d",
  " *         else",
  " *         \x7b",
  " *             show_debug_message(\"- Failed\");",
  " *         \x7d",
  " *     \x7d",
  " * \x7d",
  " * ```",
  " * In the example we are simply outputting the return values to the compiler window as debug messages, but you can use this event to deal with the information in any way you choose.",
  " * @func_end",
  " */",
  "",
  "/**",
  " * @func steam_upload_score_buffer",
  " * @desc This function will send a score to the given leaderboard along with a data package created from a buffer. The buffer should be no more than 256 bytes in size - anything beyond that will be chopped off - and can contain any data you require. The score to be uploaded should be a real number, and the leaderboard name is a string that was defined when you created the leaderboard using the function $\x7bfunction.steam_create_leaderboard\x7d.",
  " * ",
  " * [[NOTE: If the function call fails for any reason it will return -1 and the Async event will not be triggered.]]",
  " * ",
  " * @param \x7bstring\x7d lb_name The name of the leaderboard that you are uploading the scores to",
  " * @param \x7breal\x7d score The score to upload",
  " * @param \x7btype.buffer\x7d buffer The ID of the buffer to attach",
  " * ",
  " * @returns \x7breal\x7d",
  " * ",
  " * @event steam",
  " * @member \x7breal\x7d post_id The asynchronous request ID",
  " * @member \x7bstring\x7d event_type The string value `\"leaderboard_upload\"`",
  " * @member \x7bstring\x7d lb_name The name of the leaderboard",
  " * @member \x7breal\x7d num_entries The number of returned entries",
  " * @member \x7bboolean\x7d success Whether or not the request was successful",
  " * @member \x7bboolean\x7d updated Whether or not the leaderboard was updated (i.e.: the new score was better). Note that if you score was not updated neither will the data buffer.",
  " * @member \x7breal\x7d score The score that was posted to the leaderboard",
  " * @event_end",
  " * ",
  " * @example",
  " * In this example, we first upload a score and then parse the `async_load` map returned if successful. The code below shows a typical example for uploading, with a buffer being created to hold a string telling us which level the score was uploaded from:",
  " * ",
  " * ```gml",
  " * if (hp <= 0)",
  " * \x7b",
  " *     var _buff = buffer_create(256, buffer_fixed, 1);",
  " *     buffer_write(_buff, buffer_string, \"Uploaded on level \" + string(global.Level));",
  " *     upload_ID = steam_upload_score(\"Game Scores\", score, _buff);",
  " * ",
  " *     if (!upload_ID)",
  " *     \x7b",
  " *         alarm[0] = game_get_speed(gamespeed_fps);",
  " *     \x7d",
  " * ",
  " *     buffer_delete(_buff);",
  " * \x7d",
  " * ",
  " * ```",
  " * Note that we have set an alarm if the call fails. This would be used to try the upload again at a later time and you can add extra code there to retry the upload or to save the score to a text file should it continue to fail, etc. Also note that we immediately delete the buffer, since it is no longer required for the function. We now add the following into the $\x7bevent.steam\x7d for the instance controlling the scores:",
  " * ",
  " * ```gml",
  " * var _type = ds_map_find_value(async_load, \"event_type\");",
  " * if (_type == \"leaderboard_upload\")",
  " * \x7b",
  " *     var _lb_ID = ds_map_find_value(async_load, \"post_id\");",
  " *     if _lb_ID == upload_ID",
  " *     \x7b",
  " *         var _lb_name = ds_map_find_value(async_load, \"lb_name\");",
  " *         var _lb_done = ds_map_find_value(async_load, \"success\");",
  " *         var _lb_score = ds_map_find_value(async_load, \"score\");",
  " *         var _lb_updated = ds_map_find_value(async_load, \"updated\");",
  " *         show_debug_message(\"leaderboard post ID:\" + string(_lb_ID) + \" to lb:\" + string(_lb_name) + \" with score:\" + string(_lb_score) + \" updated=\" + string(_lb_updated));",
  " *         if (_lb_done)",
  " *         \x7b",
  " *             show_debug_message(\"- Succeeded\");",
  " *         \x7d",
  " *         else",
  " *         \x7b",
  " *             show_debug_message(\"- Failed\");",
  " *         \x7d",
  " *     \x7d",
  " * \x7d",
  " * ```",
  " * In the example we are simply outputting the return values to the compiler window as debug messages, but you can use this event to deal with the information in any way you choose.",
  " * @func_end",
  " */",
  "",
  "/**",
  " * @func steam_upload_score_buffer_ext",
  " * @desc This function will send a score to the given leaderboard along with a data package created from a buffer. The buffer should be no more than 256 bytes in size - anything beyond that will be chopped off - and can contain any data you require. This function is similar to $\x7bfunction.steam_upload_score_buffer\x7d but has an extra argument that will allow you to force the update of the score, as by default Steam only updates the score if it is better than the previous one.",
  " * ",
  " * [[NOTE: If the function call fails for any reason it will return -1 and the Async event will not be triggered.]]",
  " * ",
  " * @param \x7bstring\x7d lb_name The name of the leaderboard that you are uploading the scores to",
  " * @param \x7breal\x7d score The score to upload",
  " * @param \x7btype.buffer\x7d buffer The ID of the buffer to attach",
  " * @param \x7bboolean\x7d force_update Whether or not the value should be replaced",
  " * ",
  " * @returns \x7breal\x7d",
  " * ",
  " * @event steam",
  " * @member \x7breal\x7d post_id The asynchronous request ID",
  " * @member \x7bstring\x7d event_type The string value `\"leaderboard_upload\"`",
  " * @member \x7bstring\x7d lb_name The name of the leaderboard",
  " * @member \x7breal\x7d num_entries The number of returned entries",
  " * @member \x7bboolean\x7d success Whether or not the request was successful",
  " * @member \x7bboolean\x7d updated Whether or not the leaderboard was updated (i.e.: the new score was better or `forceUpdate` was set to `true`). Note that if you score was not updated neither will be the data buffer.",
  " * @member \x7breal\x7d score The score that was posted to the leaderboard",
  " * @event_end",
  " * ",
  " * @example",
  " * In this example, we first upload a score and then parse the `async_load` map returned if successful. The code below shows a typical example for uploading, with a buffer being created to hold a string telling us which level the score was uploaded from:",
  " * ",
  " * ```gml",
  " * if (hp <= 0)",
  " * \x7b",
  " *     var _buff = buffer_create(256, buffer_fixed, 1 );",
  " *     buffer_write(_buff, buffer_string, \"Uploaded on level \" + string(global.Level));",
  " *     upload_ID = steam_upload_score_buffer_ext(\"Game Scores\", score, _buff, true);",
  " * ",
  " *     if (!upload_ID)",
  " *     \x7b",
  " *         alarm[0] = game_get_speed(gamespeed_fps);",
  " *     \x7d",
  " * ",
  " *     buffer_delete(_buff);",
  " * \x7d",
  " * ",
  " * ```",
  " * Note that we have set an alarm if the call fails. This would be used to try the upload again at a later time and you can add extra code there to retry the upload or to save the score to a text file should it continue to fail, etc. Also note that we immediately delete the buffer, since it is no longer required for the function. We now add the following into the $\x7bevent.steam\x7d for the instance controlling the scores:",
  " * ",
  " * ```gml",
  " * var _type = ds_map_find_value(async_load, \"event_type\");",
  " * if (_type == \"leaderboard_upload\")",
  " * \x7b",
  " *     var _lb_ID = ds_map_find_value(async_load, \"post_id\");",
  " *     if _lb_ID == upload_ID",
  " *     \x7b",
  " *         var _lb_name = ds_map_find_value(async_load, \"lb_name\");",
  " *         var _lb_done = ds_map_find_value(async_load, \"success\");",
  " *         var _lb_score = ds_map_find_value(async_load, \"score\");",
  " *         var _lb_updated = ds_map_find_value(async_load, \"updated\");",
  " *         show_debug_message(\"leaderboard post ID:\" + string(_lb_ID) + \" to lb:\" + string(_lb_name) + \" with score:\" + string(_lb_score) + \" updated=\" + string(_lb_updated));",
  " *         if (_lb_done)",
  " *         \x7b",
  " *             show_debug_message(\"- Succeeded\");",
  " *         \x7d",
  " *         else",
  " *         \x7b",
  " *             show_debug_message(\"- Failed\");",
  " *         \x7d",
  " *     \x7d",
  " * \x7d",
  " * ```",
  " * In the example we are simply outputting the return values to the compiler window as debug messages, but you can use this event to deal with the information in any way you choose.",
  " * @func_end",
  " */",
  "",
  "/**",
  " * @func steam_download_scores",
  " * @desc This function is used to retrieve a sequential range of leaderboard entries by leaderboard ranking. The `start_idx` and `end_idx` parameters control the requested range of ranks, for example, you can display the top 10 on a leaderboard for your game by setting the start value to 1 and the end value to 10. The leaderboard name is a string that was defined when you created the leaderboard using the function $\x7bfunction.steam_create_leaderboard\x7d.",
  " * ",
  " * [[NOTE: If the function call fails for any reason it will return -1 and the async event will not be triggered.]]",
  " * ",
  " * @param \x7bstring\x7d lb_name The name of the leaderboard that you are downloading the scores from",
  " * @param \x7breal\x7d start_idx The start position within the leaderboard",
  " * @param \x7breal\x7d end_idx The end position within the leaderboard",
  " * ",
  " * @returns \x7breal\x7d",
  " * ",
  " * @event steam",
  " * @member \x7breal\x7d id The asynchronous request ID",
  " * @member \x7bstring\x7d event_type The string value `\"leaderboard_download\"`",
  " * @member \x7bint64\x7d status The status code if download fails",
  " * @member \x7bstring\x7d lb_name The name of the leaderboard",
  " * @member \x7breal\x7d num_entries The number of returned entries",
  " * @member \x7bstring\x7d entries A JSON formatted string with all the downloaded entries (see $\x7bstruct.LeaderboardEntry\x7d for details)",
  " * @event_end",
  " * ",
  " * @example",
  " * In this extended example we will request the top ten ranking for the given leaderboard and parse its results in the $\x7bevent.steam\x7d. To start with we need to request the scores with the following code:",
  " * ",
  " * ```gml",
  " * score_get = steam_download_scores(\"Game Scores\", 1, 10);",
  " * ```",
  " * This will send off a request to the Steam Server for the scores from the leaderboard \"Game Scores\", storing the async id of the request in the variable \"score_get\". this will then be handled in the Steam Async Event in the following way:",
  " * ",
  " * ```gml",
  " * var _async_id = ds_map_find_value(async_load, \"id\");",
  " * if _async_id == score_get",
  " * \x7b",
  " *     var _entries = ds_map_find_value(async_load, \"entries\");",
  " *     var _map = json_decode(_entries);",
  " *     if ds_map_exists(_map, \"default\")",
  " *     \x7b",
  " *         ds_map_destroy(_map);",
  " *         exit;",
  " *     \x7d",
  " *     else",
  " *     \x7b",
  " *         var _list = ds_map_find_value(_map, \"entries\");",
  " *         var _len = ds_list_size(_list);",
  " *         var _entry;",
  " *         for(var i = 0; i < _len; i++;)",
  " *         \x7b",
  " *             _entry = ds_list_find_value(_list, i );",
  " *             steam_name[i] = ds_map_find_value(_entry, \"name\");",
  " *             steam_score[i] = ds_map_find_value(_entry, \"score\");",
  " *             steam_rank[i] = ds_map_find_value(_entry, \"rank\");",
  " *             steam_data[i] = ds_map_find_value(_entry, \"data\");",
  " *         \x7d",
  " *     \x7d",
  " *     ds_map_destroy(map);",
  " * \x7d",
  " * ```",
  " * What we do here is first check the \"id\" key of the special $\x7bvar.async_load\x7d DS map. If this value is the same as the value of the original call-back function (stored in the \"score_get\" variable) we then continue to process the data. The first thing we do is parse the `async_load` DS map for the key \"entries\" which will contain a JSON formatted string containing the leaderboard data. This JSON object is then decoded (see $\x7bfunction.json_decode\x7d) as another $\x7btype.ds_map\x7d, and this new map ID is stored in the variable \"map\".",
  " * This map is checked for the key \"default\" and if that is found then the map is destroyed and the event is exited. If no \"default\" key is found, the code will then parse the map to extract the necessary information about the leaderboard, by first extracting a DS list from the \"entries\" key of the DS map, and then looping through each entry of the list to get **another** DS map with the name, score and rank of each entry. These values are then stored to arrays.",
  " * Once the loop has finished, the JSON $\x7btype.ds_map\x7d is destroyed (which in turn destroys all the internal maps and lists). There is no need to destroy the $\x7bvar.async_load\x7d DS map as this is handled for you by GameMaker.",
  " * @func_end",
  " */",
  "",
  "/**",
  " * @func steam_download_scores_around_user",
  " * @desc This function is used to retrieve leaderboard entries relative to the current user\x27s entry. The `range_start` parameter is the number of entries to retrieve **before** the current user\x27s entry, and the `range_end` parameter is the number of entries after the current user\x27s entry, and the current user\x27s entry is **always** included in the results. For example, if the current user is number 5 on a given leaderboard, then setting the start range to -2 and the end range to 2 will return 5 entries: 3 through 7. If there are not enough entries in the leaderboard before or after the user\x27s entry, Steam will adjust the range start and end points trying to maintained the range size. For example, if the user is #1 on the leaderboard, start is set to -2, and end is set to 2, Steam will return the first 5 entries in the leaderboard.",
  " * ",
  " * [[NOTE: If the function call fails for any reason it will return -1 and the async event will not be triggered.]]",
  " * ",
  " * @param \x7bstring\x7d lb_name The name of the leaderboard that you are downloading the scores from",
  " * @param \x7breal\x7d range_start The start position within the leaderboard",
  " * @param \x7breal\x7d range_end The end position within the leaderboard",
  " * ",
  " * @returns \x7breal\x7d",
  " * ",
  " * @event steam",
  " * @member \x7breal\x7d id The asynchronous request ID",
  " * @member \x7bstring\x7d event_type The string value `\"leaderboard_download\"`",
  " * @member \x7bint64\x7d status The status code if download fails",
  " * @member \x7bstring\x7d lb_name The name of the leaderboard",
  " * @member \x7breal\x7d num_entries The number of returned entries",
  " * @member \x7bstring\x7d entries A JSON formatted string with all the downloaded entries (see $\x7bstruct.LeaderboardEntry\x7d for details)",
  " * @event_end",
  " * ",
  " * ```gml",
  " * request_id = steam_download_scores_around_user(\"Game Scores\", -4, 5);",
  " * ```",
  " * This will send off a request to the Steam Server for a range of 10 scores from the leaderboard `\"Game Scores\"`, centered on the player and will store the async ID of the request in the variable `request_id`. This will then be handled in the $\x7bevent.steam\x7d, as shown in the example for $\x7bfunction.steam_download_scores\x7d.",
  " * @func_end",
  " */",
  "",
  "/**",
  " * @func steam_download_friends_scores",
  " * @desc With this function you can retrieve *only* the scores on the leaderboard that belong to those people that are marked as \"friends\" in the Steam client. So, if your leaderboard has 200 entries, and 50 of them are your friends, this function will retrieve only those 50 results. The leaderboard name is a string that was defined when you created the leaderboard using the function $\x7bfunction.steam_create_leaderboard\x7d.",
  " * ",
  " * [[NOTE: If the function call fails for any reason it will return -1 and the async event will not be triggered.]]",
  " * ",
  " * @param \x7bstring\x7d lb_name The name of the leaderboard that you are downloading the scores from",
  " * ",
  " * @returns \x7breal\x7d",
  " * ",
  " * @event steam",
  " * @member \x7breal\x7d id The asynchronous request ID",
  " * @member \x7bstring\x7d event_type The string value `\"leaderboard_download\"`",
  " * @member \x7bint64\x7d status The status code if download fails",
  " * @member \x7bstring\x7d lb_name The name of the leaderboard",
  " * @member \x7breal\x7d num_entries The number of returned entries",
  " * @member \x7bstring\x7d entries A JSON formatted string with all the downloaded entries (see $\x7bstruct.LeaderboardEntry\x7d for details)",
  " * @event_end",
  " * ",
  " * @example",
  " * ```gml",
  " * request_id = steam_download_friends_scores(\"Game Scores\");",
  " * ```",
  " * This will send off a request to the Steam Server for the users friends scores from the given leaderboard and will store the async ID of the request in the variable `request_id`. This will then be handled in the $\x7bevent.steam\x7d, as shown in the example for $\x7bfunction.steam_download_scores\x7d.",
  " * @func_end",
  " */",
  "",
  "/**",
  " * @func steam_get_leaderboard_entry_count",
  " * @desc This function returns the total number of entries in a leaderboard.",
  " * ",
  " * The function returns -1 in case something went wrong.",
  " * ",
  " * @param \x7bstring\x7d lb_name The name of the leaderboard.",
  " * ",
  " * @returns \x7breal\x7d",
  " * @func_end",
  " */",
  "",
  "/**",
  " * @func steam_get_leaderboard_display_type",
  " * @desc This function returns the display type of a leaderboard handle.",
  " * ",
  " * The function returns -1 in case something went wrong.",
  " * ",
  " * @param \x7bstring\x7d lb_name The name of the leaderboard.",
  " * ",
  " * @returns \x7bconstant.LeaderboardDisplayType\x7d",
  " * @func_end",
  " */",
  "",
  "/**",
  " * @struct LeaderboardEntry",
  " * @desc A leaderboard entry is represented by a JSON formatted string that can be returned by the async callback event of a couple of functions.",
  " * ",
  " * This string can be decoded into a $\x7btype.ds_map\x7d (see $\x7bfunction.json_decode\x7d, needs to be destroyed afterwards) or into a $\x7btype.struct\x7d (see $\x7bfunction.json_parse\x7d, recommended) and will provide the following members.",
  " * @member \x7breal\x7d rank The rank of the entry on the specified leaderboard",
  " * @member \x7bstring\x7d data The base64 encoded string with the data provided when uploading scores using the $\x7bfunction.steam_upload_score_buffer\x7d or $\x7bfunction.steam_upload_score_buffer_ext\x7d functions :eight_pointed_black_star: OPTIONAL",
  " * @member \x7breal\x7d score The score attributed to this entry",
  " * @member \x7bstring\x7d name The display name of the player for this entry",
  " * @member \x7bint64\x7d userID The unique user ID of the player for this entry",
  " * ",
  " * [[NOTE: If $\x7bfunction.steam_upload_score_buffer\x7d or $\x7bfunction.steam_upload_score_buffer_ext\x7d were used to upload the score, the decoded entry will now have a `\"data\"` key so you can retrieve the data of the uploaded buffer (see the $\x7bevent.steam\x7d extended code example for further details). This data will be base64 encoded and so you will need to use the function $\x7bfunction.buffer_base64_decode\x7d on the data before reading from the buffer.]]",
  " * @struct_end",
  " */",
  "",
  "/**",
  " * @const LeaderboardDisplayType",
  " * @desc These constants specify the display type of a leaderboard.",
  " * @member lb_disp_none Show the leaderboard \"as is\".",
  " * @member lb_disp_numeric Show the leaderboard as a numeric display.",
  " * @member lb_disp_time_sec Show the leaderboard values as times, with the base value being seconds.",
  " * @member lb_disp_time_ms Show the leaderboard values as times, with the base value being milliseconds",
  " * @const_end",
  " */",
  "",
  "/**",
  " * @const LeaderboardSortOrder",
  " * @desc These constants specify the sort order of a leaderboard.",
  " * @member lb_sort_none No sorting. The information will be displayed \"as is\".",
  " * @member lb_sort_ascending Sort the leaderboard in ascending order.",
  " * @member lb_sort_descending Sort the leaderboard in descending order.",
  " * @const_end",
  " */",
  "",
  "/**",
  " * @module leaderboards",
  " * @title Leaderboards",
  " * @desc The Steam API supports persistent leaderboards with automatically ordered entries. These leaderboards can be used to display global and friend leaderboards in your game and on the community web page for your game. Each game can have up to 10,000 leaderboards, and each leaderboard can be retrieved immediately after a player\x27s score has been inserted into it, but note that for each leaderboard, a player can have only **one** entry, although there is no limit on the number of players per leaderboard.",
  " * ",
  " * @section_func Functions",
  " * @desc Each leaderboard entry contains a name, a score and a rank for the leaderboard, and this data will be replaced when a new leaderboard entry is created for the user, and the following functions can be used to add and retrieve this data form the leaderboards for your game:",
  " * @ref steam_create_leaderboard",
  " * @ref steam_upload_score",
  " * @ref steam_upload_score_ext",
  " * @ref steam_upload_score_buffer",
  " * @ref steam_upload_score_buffer_ext",
  " * @ref steam_download_scores",
  " * @ref steam_download_scores_around_user",
  " * @ref steam_download_friends_scores",
  " * @ref steam_get_leaderboard_entry_count",
  " * @ref steam_get_leaderboard_display_type",
  " * @section_end",
  " * ",
  " * @section_struct Structs",
  " * @desc The following data types are used by the leaderboard functions:",
  " * @ref LeaderboardEntry",
  " * @section_end",
  " * ",
  " * @section_const Constants",
  " * @desc The following constants are used by the leaderboard functions:",
  " * @ref LeaderboardDisplayType",
  " * @ref LeaderboardSortOrder",
  " * @section_end",
  " * ",
  " * @module_end",
  " */"
]

/-- The 245 lines of src/docs/networking.js, verbatim. -/
def networking_lines : List String := [
  "// FUNCTIONS",
  "",
  "/**",
  " * @func steam_net_packet_get_data",
  " * @desc This function copies the contents of the last received packet to the given buffer. Data is copied to the start of the buffer (position remains unaffected), meaning that if you reuse the same buffer, you should \"rewind\" it prior to reading.",
  " * ",
  " * [[NOTE: If the buffer is not big enough to fit data, it will be resized automatically (the buffer needs to be created using the using the `buffer_grow` type).]]",
  " * ",
  " * @param \x7btype.buffer\x7d buffer The buffer to write the incoming data to.",
  " * ",
  " * @returns \x7bboolean\x7d",
  " * ",
  " * @example",
  " * ```gml",
  " * while (steam_net_packet_receive())",
  " * \x7b",
  " *     steam_net_packet_get_data(inbuf);",
  " *     buffer_seek(inbuf, buffer_seek_start, 0);",
  " *     switch (buffer_read(inbuf, buffer_u8))",
  " *     \x7b",
  " *         case 1: show_debug_message(\"packet ID 1\"); break;",
  " *         case 2: show_debug_message(\"packet ID 2\"); break;",
  " *         default: show_debug_message(\"unknown packet\"); break;",
  " *     \x7d",
  " * \x7d",
  " * ```",
  " * The code above will check for an incoming packet and get its data into a buffer (resizing if necessary) and reads from it.",
  " * @func_end",
  " */",
  "",
  "/**",
  " * @func steam_net_packet_get_sender_id",
  " * @desc This function returns the Steam ID of the user that sent the last received packet.",
  " * Can be used in conjunction with $\x7bfunction.steam_net_packet_send\x7d to send something back and for just telling the senders apart.",
  " * ",
  " * @returns \x7bint64\x7d",
  " * ",
  " * @example",
  " * ```gml",
  " * while(steam_net_packet_receive())",
  " * \x7b",
  " *     var _sender = steam_net_packet_get_sender_id();",
  " * ",
  " *     buffer_seek(outbuf, buffer_seek_start, 0);",
  " *     buffer_write(outbuf, buffer_u8, test_network_packet.ping);",
  " * ",
  " *     steam_net_packet_send(_sender, outbuf);",
  " * \x7d",
  " * ```",
  " * The above code will show a code example.",
  " * @func_end",
  " */",
  "",
  "/**",
  " * @func steam_net_packet_get_size",
  " * @desc This function returns the size of the last received packet, in bytes.",
  " * ",
  " * @returns \x7breal\x7d",
  " * ",
  " * @example",
  " * ```gml",
  " * while (steam_net_packet_receive())",
  " * \x7b",
  " *     var _size = steam_net_packet_size();",
  " *     show_debug_message(\"Received \" + string(_size) + \" bytes.\");",
  " * \x7d",
  " * ```",
  " * The code above will display the size of each incoming packet.",
  " * @func_end",
  " */",
  "",
  "/**",
  " * @func steam_net_packet_receive",
  " * @desc This function attempts to get the next packet from Steam API and returns whether successfully done so.",
  " * Other steam_net_ functions can then be used to get packet information/contents.",
  " * ",
  " * @returns \x7bboolean\x7d",
  " * ",
  " * @example",
  " * ```gml",
  " * while (steam_net_packet_receive())",
  " * \x7b",
  " *     // process the received packet",
  " * \x7d",
  " * ```",
  " * The code above will attempt to get the next packet from Steam API, would be used every step while in lobby or with less frequency otherwise.",
  " * @func_end",
  " */",
  "",
  "/**",
  " * @func steam_net_packet_send",
  " * @desc This function sends a packet to the given endpoint, returns whether successful (as opposed to incorrect arguments/invalid ID). If no packet type is passed in then default value will be used, the default value can be set using the $\x7bfunction.steam_net_packet_set_type\x7d function. Returns whether or not the packet was successfully sent.",
  " * ",
  " * @param \x7bint64\x7d user_id  The target user to send the packet to",
  " * @param \x7breal\x7d buffer Buffer that contains the raw byte array for the packet data to send",
  " * @param \x7breal\x7d size The size of data to send (default -1, sends the entire buffer) :eight_pointed_black_star: OPTIONAL",
  " * @param \x7bconst.PacketType\x7d packet_type The type of packet to be used :eight_pointed_black_star: OPTIONAL",
  " * ",
  " * @returns \x7bboolean\x7d",
  " * ",
  " * @example",
  " * ```gml",
  " * var _buf = buffer_create(16, buffer_grow, 1);",
  " * buffer_write(buf, buffer_string, \"Hello!\");",
  " * steam_net_packet_send(steam_id, _buf, -1);",
  " * buffer_delete(_buf);",
  " * ```",
  " * The code sample will create a buffer and write to it, sending the total length of it to the given `steam_id`, the buffer is then deleted.",
  " * @func_end",
  " */",
  "",
  "/**",
  " * @func steam_net_packet_set_type",
  " * @desc This function sets the default connection protocol used when sending the data packets (using the $\x7bfunction.steam_net_packet_send\x7d function). Returns whether or not the default protocol was successfully set.",
  " * ",
  " * @param \x7bconstant.PacketType\x7d protocol The default connection protocol to be used",
  " * ",
  " * @returns \x7bboolean\x7d",
  " * ",
  " * @example",
  " * ```gml",
  " * steam_net_packet_set_type(steam_net_packet_type_reliable);",
  " * ```",
  " * The above code will set the current connection to use the `steam_net_packet_type_reliable` protocol to send data packages.",
  " * @func_end",
  " */",
  "",
  "/**",
  " * @func steam_net_accept_p2p_session",
  " * @desc This function accepts a P2P session request from the specified user. Returns whether successful or not.",
  " * ",
  " * @param \x7bint64\x7d userID The User ID of the user that sent the initial packet to us.",
  " * ",
  " * @returns \x7bboolean\x7d",
  " * ",
  " * @example",
  " * ```gml",
  " * if (isMyFriend(userID))",
  " * \x7b",
  " *     steam_net_accept_p2p_session(userID);",
  " * \x7d",
  " * ```",
  " * The code above uses a custom implemented function that will check if a given `userID` is a friend and if it is it will accept the P2P session.",
  " * @func_end",
  " */",
  "",
  "/**",
  " * @func steam_net_close_p2p_session",
  " * @desc This function closes a P2P session with the specified user. It returns whether successful or not.",
  " * Steam will automatically close sessions after a period of inactivity, but you could also do it manually if you want.",
  " * ",
  " * @param \x7bint64\x7d user_id The user ID of the user to close the connection with.",
  " * ",
  " * @returns \x7bboolean\x7d",
  " * ",
  " * ```gml",
  " * if (global.chat_closed)",
  " * \x7b",
  " *      steam_net_close_p2p_session(user_id);",
  " * \x7d",
  " * ```",
  " * The code above check to see if a global variable (`chat_closed`) is true and if so, it will close the P2P session.",
  " * @func_end",
  " */",
  "",
  "/**",
  " * @func steam_net_set_auto_accept_p2p_sessions",
  " * @desc This function sets whether to auto-accept session requests coming from players in the same lobby. This is enabled by default for convenience. If you disable it, you will need to handle the async event when someone uses the $\x7bfunction.steam_lobby_join_id\x7d function.",
  " * ",
  " * @param \x7bboolean\x7d enable disable/enable auto accept sessions",
  " * ",
  " * @event steam",
  " * @param \x7bstring\x7d type The string value `\"lobby_join_requested\"`",
  " * @param \x7bint64\x7d lobby_id The lobby unique identifier",
  " * @param \x7bint64\x7d friend_id The friend unique identifier",
  " * @event_end",
  " * ",
  " * @example",
  " * ```gml",
  " * steam_net_set_auto_accept_p2p_sessions(false);",
  " * ```",
  " * The code above will disable the auto accept P2P sessions functionality meaning we  should deal with the requests manually. In order to do so we need to use the $\x7bevent.steam\x7d to catch the callback:",
  " * ",
  " * ```gml",
  " * if (async_load[?\"event_type\"] == \"lobby_join_requested\")",
  " * \x7b",
  " *     steam_net_accept_p2p_session(async_load[?\"friend_id\"]);",
  " * \x7d",
  " * ```",
  " * @func_end",
  " */",
  "",
  "/**",
  " * @const PacketType",
  " * @desc These constants specify the type of a steam packet.",
  " * ",
  " * @member steam_net_packet_type_unreliable Equivalent to UDP the data may or may not be delivered, will not be resent automatically.",
  " * @member steam_net_packet_type_unreliable_nodelay Similar to \"unreliable\" type, but always sent instantly (as soon as function is called). Intended for things like streaming voice data, where you want lowest latency possible and only care about the current data.",
  " * @member steam_net_packet_type_reliable Equivalent to TCP, the data is warranted to be delivered in order and intact.",
  " * @member steam_net_packet_type_reliable_buffer Similar to \"reliable\" type, but utilizes [Nagle\x27s algorithm](https://en.wikipedia.org/wiki/Nagle\x27s_algorithm) to reduce the number of packets at the cost of potential delay while the data accumulates until the sending threshold.",
  " * @const_end",
  " */",
  "",
  "// MODULES",
  "",
  "/**",
  " * @module Networking",
  " * @desc The following functions and constants allow you to use Steam\x27s Networking functionality.",
  " * ",
  " * @section_func",
  " * @title Packets IO",
  " * @desc These functions are provided for handling sending and receiving packets:",
  " * ",
  " * @ref steam_net_packet_get_data",
  " * @ref steam_net_packet_get_sender_id",
  " * @ref steam_net_packet_get_size",
  " * @ref steam_net_packet_receive",
  " * @ref steam_net_packet_send",
  " * @ref steam_net_packet_set_type",
  " * @ref steam_net_accept_p2p_session",
  " * @ref steam_net_close_p2p_session",
  " * @ref steam_net_set_auto_accept_p2p_sessions",
  " * ",
  " * @section_end",
  " * ",
  " * @section_func session",
  " * @title Session",
  " * @desc The following functions allow handling P2P sessions:",
  " * ",
  " * @ref steam_net_accept_p2p_session",
  " * @ref steam_net_close_p2p_session",
  " * @ref steam_net_set_auto_accept_p2p_sessions",
  " * ",
  " * @section_end",
  " * ",
  " * @section_const",
  " * @title Constants",
  " * @desc These are the constants used by this API:",
  " * ",
  " * @ref PacketType",
  " * ",
  " * @section_end",
  " * ",
  " * @module_end",
  " */"
]

/-- Leading space characters removed from a character list. -/
def dropSpaces : List Char → List Char
  | ' ' :: cs => dropSpaces cs
  | cs => cs

/-- True when every character in the list is a space. -/
def allSpaces (cs : List Char) : Bool := cs.all (fun c => c == ' ')

/-- True when the first list is an initial segment of the second. -/
def leadsWith : List Char → List Char → Bool
  | [], _ => true
  | _ :: _, [] => false
  | a :: as, b :: bs => a == b && leadsWith as bs

/-- True when the pattern occurs as a contiguous substring of the character list. -/
def containsSub (pat : List Char) : List Char → Bool
  | [] => pat.isEmpty
  | c :: cs => leadsWith pat (c :: cs) || containsSub pat cs

/-- The characters that follow the first occurrence of a block-comment closer, if any. -/
def afterClose : List Char → Option (List Char)
  | '*' :: '/' :: cs => some cs
  | _ :: cs => afterClose cs
  | [] => none

/-- State machine over the lines of a JavaScript file, tracking whether the current
position is inside a block comment. Returns true exactly when the whole file
consists of blank lines, line comments and block comments, with nothing after a
comment closer on its line: no executable code at all. -/
def scanLines : List String → Bool → Bool
  | [], inside => !inside
  | s :: rest, false =>
    let cs := dropSpaces s.data
    if cs.isEmpty then scanLines rest false
    else if leadsWith ['/', '/'] cs then scanLines rest false
    else if leadsWith ['/', '*'] cs then
      match afterClose (cs.drop 2) with
      | none => scanLines rest true
      | some r => allSpaces r && scanLines rest false
    else false
  | s :: rest, true =>
    match afterClose s.data with
    | none => scanLines rest true
    | some r => allSpaces r && scanLines rest false

/-- True when the file contains only comments and blank lines. -/
def commentsOnly (file : List String) : Bool := scanLines file false

/-- The opening curly-brace character. -/
def lbrace : Char := Char.ofNat 123

/-- The closing curly-brace character. -/
def rbrace : Char := Char.ofNat 125

/-- Documentation tag carried by a line: for a line of the form
`  * @name rest` inside a doc comment, returns the tag name and the remainder
of the line (leading spaces stripped); `none` for any other line. -/
def tagOf (s : String) : Option (String × String) :=
  match dropSpaces s.data with
  | '*' :: cs =>
    match dropSpaces cs with
    | '@' :: cs2 =>
      let nm := cs2.takeWhile (fun c => c != ' ')
      let rest := dropSpaces (cs2.dropWhile (fun c => c != ' '))
      some (String.mk nm, String.mk rest)
    | _ => none
  | _ => none

/-- All documentation tag names occurring in a file, in order. -/
def allTags (file : List String) : List String :=
  file.filterMap (fun s => (tagOf s).map (fun p => p.1))

/-- Lines of a function block: everything up to the closing `func_end` tag. -/
def untilFuncEnd : List String → List String
  | [] => []
  | s :: rest =>
    match tagOf s with
    | some ("func_end", _) => []
    | _ => s :: untilFuncEnd rest

/-- The block of lines documenting the named function: the lines strictly
between its `func` tag and the following `func_end` tag. -/
def funcBlock (name : String) : List String → List String
  | [] => []
  | s :: rest =>
    match tagOf s with
    | some ("func", n) => if n == name then untilFuncEnd rest else funcBlock name rest
    | _ => funcBlock name rest

/-- The names introduced by `func` tags in a file, in order. -/
def funcNames (file : List String) : List String :=
  file.filterMap (fun s =>
    match tagOf s with
    | some ("func", n) => some n
    | _ => none)

/-- Lines of an event region: everything up to the closing `event_end` tag. -/
def untilEventEnd : List String → List String
  | [] => []
  | s :: rest =>
    match tagOf s with
    | some ("event_end", _) => []
    | _ => s :: untilEventEnd rest

/-- The lines strictly between the first `event` tag of a block and the
following `event_end` tag. -/
def eventRegion : List String → List String
  | [] => []
  | s :: rest =>
    match tagOf s with
    | some ("event", _) => untilEventEnd rest
    | _ => eventRegion rest

/-- Helper for `stripEvent`: drops lines while inside an event region. -/
def stripEventAux : Bool → List String → List String
  | _, [] => []
  | inEv, s :: rest =>
    match tagOf s with
    | some ("event", _) => stripEventAux true rest
    | some ("event_end", _) => stripEventAux false rest
    | _ => if inEv then stripEventAux inEv rest else s :: stripEventAux inEv rest

/-- The lines of a block with its event regions removed. -/
def stripEvent (block : List String) : List String := stripEventAux false block

/-- Splits the remainder of a typed tag line of the form
`{annotation} name description` into its three parts; a missing braced
annotation yields an empty annotation. -/
def annSplit (rest : String) : String × String × String :=
  let cs0 := rest.data
  if leadsWith [lbrace] cs0 then
    let cs := cs0.drop 1
    let ann := cs.takeWhile (fun c => c != rbrace)
    let cs2 := (cs.dropWhile (fun c => c != rbrace)).drop 1
    let cs3 := dropSpaces cs2
    let nm := cs3.takeWhile (fun c => c != ' ')
    let d := dropSpaces (cs3.dropWhile (fun c => c != ' '))
    (String.mk ann, String.mk nm, String.mk d)
  else
    let nm := cs0.takeWhile (fun c => c != ' ')
    let d := dropSpaces (cs0.dropWhile (fun c => c != ' '))
    ("", String.mk nm, String.mk d)

/-- The `(annotation, name, description)` triples of the `member` tags inside a
block's event region, in order. -/
def memberTriples (block : List String) : List (String × String × String) :=
  (eventRegion block).filterMap (fun s =>
    match tagOf s with
    | some ("member", r) => some (annSplit r)
    | _ => none)

/-- The `(annotation, name)` pairs of the `member` tags inside a block's event
region, in order. -/
def memberPairs (block : List String) : List (String × String) :=
  (memberTriples block).map (fun t => (t.1, t.2.1))

/-- The `(annotation, name, description)` triples of the `param` tags of a
block that lie outside its event region, in order. -/
def paramTriples (block : List String) : List (String × String × String) :=
  (stripEvent block).filterMap (fun s =>
    match tagOf s with
    | some ("param", r) => some (annSplit r)
    | _ => none)

/-- The `(annotation, name)` pairs of a block's parameters, in order. -/
def paramPairs (block : List String) : List (String × String) :=
  (paramTriples block).map (fun t => (t.1, t.2.1))

/-- The description of the named parameter of a block, if present. -/
def paramDesc (block : List String) (nm : String) : Option String :=
  ((paramTriples block).filter (fun t => t.2.1 == nm)).head?.map (fun t => t.2.2)

/-- True when the optional string contains the pattern as a substring. -/
def descContains (o : Option String) (pat : String) : Bool :=
  match o with
  | some d => containsSub pat.data d.data
  | none => false

/-- The type annotation of the first `returns` tag of a block, if any. -/
def returnsAnnot (block : List String) : Option String :=
  ((stripEvent block).filterMap (fun s =>
    match tagOf s with
    | some ("returns", r) => some (annSplit r).1
    | _ => none)).head?

/-- True when some line of the block carries the given tag. -/
def hasTag (t : String) (block : List String) : Bool :=
  block.any (fun s =>
    match tagOf s with
    | some (n, _) => n == t
    | none => false)

/-- True when some line of the block contains the pattern as a substring. -/
def mentions (block : List String) (pat : String) : Bool :=
  block.any (fun s => containsSub pat.data s.data)

/-- The text between the first pair of double quotes of a string. -/
def quoted (d : String) : String :=
  String.mk (((d.data.dropWhile (fun c => c != '"')).drop 1).takeWhile (fun c => c != '"'))

/-- The event type string documented by a block's event region: the quoted
value in the description of its `event_type` member, if that member exists. -/
def eventTypeOf (block : List String) : Option String :=
  ((memberTriples block).filter (fun t => t.2.1 == "event_type")).head?.map
    (fun t => quoted t.2.2)

/-- The names referenced by `ref` tags in a file, in order. -/
def refNames (file : List String) : List String :=
  file.filterMap (fun s =>
    match tagOf s with
    | some ("ref", r) => some r
    | _ => none)

/-- The names defined by `func`, `const` and `struct` tags in a file. -/
def defNames (file : List String) : List String :=
  file.filterMap (fun s =>
    match tagOf s with
    | some ("func", r) => some r
    | some ("const", r) => some r
    | some ("struct", r) => some r
    | _ => none)

/-- Lines of a module block: everything up to the closing `module_end` tag. -/
def untilModuleEnd : List String → List String
  | [] => []
  | s :: rest =>
    match tagOf s with
    | some ("module_end", _) => []
    | _ => s :: untilModuleEnd rest

/-- The lines strictly between a file's `module` tag and `module_end` tag. -/
def moduleBlock : List String → List String
  | [] => []
  | s :: rest =>
    match tagOf s with
    | some ("module", _) => untilModuleEnd rest
    | _ => moduleBlock rest

/-- Helper for `funcSecRefs`: collects `ref` entries while inside a
`section_func` section. -/
def funcSecRefsAux : Bool → List String → List String
  | _, [] => []
  | inF, s :: rest =>
    match tagOf s with
    | some ("section_func", _) => funcSecRefsAux true rest
    | some ("section_end", _) => funcSecRefsAux false rest
    | some ("ref", r) => if inF then r :: funcSecRefsAux inF rest else funcSecRefsAux inF rest
    | _ => funcSecRefsAux inF rest

/-- The names referenced by `ref` tags inside the `section_func` sections of a
file's module block. -/
def funcSecRefs (file : List String) : List String :=
  funcSecRefsAux false (moduleBlock file)

/-- True when the two lists contain the same elements, ignoring order and
multiplicity. -/
def sameSet (a b : List String) : Bool :=
  a.all (fun x => b.contains x) && b.all (fun x => a.contains x)

/-- Kind of top-level documentation block open at a point in a file. -/
inductive TopKind where
  | tNone
  | tFunc
  | tConst
  | tStruct
  | tModule
  deriving DecidableEq, BEq, Repr

/-- Nesting state while scanning tags: which top-level block is open, whether
an event region is open, and whether a module section is open. -/
structure NestSt where
  top : TopKind
  ev : Bool
  sec : Bool
  deriving DecidableEq, BEq, Repr

/-- One step of the nesting check, applied at each tag: top-level blocks may
only open at top level and must close while open with nothing nested left
open; events and sections may only open inside a block and must close inside
that same block. Non-structural tags leave the state unchanged. -/
def nestStep (st : NestSt) (t : String) : Option NestSt :=
  if t == "func" then
    if st.top == TopKind.tNone && !st.ev && !st.sec then some ⟨TopKind.tFunc, st.ev, st.sec⟩ else none
  else if t == "func_end" then
    if st.top == TopKind.tFunc && !st.ev && !st.sec then some ⟨TopKind.tNone, st.ev, st.sec⟩ else none
  else if t == "const" then
    if st.top == TopKind.tNone && !st.ev && !st.sec then some ⟨TopKind.tConst, st.ev, st.sec⟩ else none
  else if t == "const_end" then
    if st.top == TopKind.tConst && !st.ev && !st.sec then some ⟨TopKind.tNone, st.ev, st.sec⟩ else none
  else if t == "struct" then
    if st.top == TopKind.tNone && !st.ev && !st.sec then some ⟨TopKind.tStruct, st.ev, st.sec⟩ else none
  else if t == "struct_end" then
    if st.top == TopKind.tStruct && !st.ev && !st.sec then some ⟨TopKind.tNone, st.ev, st.sec⟩ else none
  else if t == "module" then
    if st.top == TopKind.tNone && !st.ev && !st.sec then some ⟨TopKind.tModule, st.ev, st.sec⟩ else none
  else if t == "module_end" then
    if st.top == TopKind.tModule && !st.ev && !st.sec then some ⟨TopKind.tNone, st.ev, st.sec⟩ else none
  else if t == "event" then
    if !(st.top == TopKind.tNone) && !st.ev && !st.sec then some ⟨st.top, true, st.sec⟩ else none
  else if t == "event_end" then
    if st.ev then some ⟨st.top, false, st.sec⟩ else none
  else if t == "section_func" || t == "section_struct" || t == "section_const" then
    if !(st.top == TopKind.tNone) && !st.ev && !st.sec then some ⟨st.top, st.ev, true⟩ else none
  else if t == "section_end" then
    if st.sec then some ⟨st.top, st.ev, false⟩ else none
  else some st

/-- Runs the nesting check over the tags of a file's lines. -/
def nestRun : List String → Option NestSt → Option NestSt
  | [], o => o
  | s :: rest, o =>
    match o with
    | none => none
    | some st =>
      match tagOf s with
      | some (t, _) => nestRun rest (nestStep st t)
      | none => nestRun rest (some st)

/-- True when a file's tags nest correctly and everything opened is closed. -/
def nestOK (file : List String) : Bool :=
  nestRun file (some ⟨TopKind.tNone, false, false⟩) == some ⟨TopKind.tNone, false, false⟩

/-- True when a block documents an asynchronous request identifier: it has a
`returns` tag and its event payload has an `id` or `post_id` member described
as the asynchronous request ID. -/
def eventReqIdOK (block : List String) : Bool :=
  hasTag "returns" block &&
  (memberTriples block).any (fun t =>
    (t.2.1 == "id" || t.2.1 == "post_id") && t.2.2 == "The asynchronous request ID")

/-- True when every function block of the file that declares an event also
declares a return value and a request-identifier event member. -/
def eventPattern (file : List String) : Bool :=
  (funcNames file).all (fun n =>
    !(hasTag "event" (funcBlock n file)) || eventReqIdOK (funcBlock n file))

/-- All function blocks of both documentation files. -/
def allFuncBlocks : List (List String) :=
  (funcNames leaderboards_lines).map (fun n => funcBlock n leaderboards_lines) ++
  (funcNames networking_lines).map (fun n => funcBlock n networking_lines)

/-- The event type and payload member signature of each function block. -/
def eventSigs : List (Option String × List (String × String)) :=
  allFuncBlocks.map (fun b => (eventTypeOf b, memberPairs b))

/-- True when any two function blocks declaring the same event type declare
exactly the same payload member list with the same type annotations. -/
def eventTypesConsistent : Bool :=
  eventSigs.all (fun p => eventSigs.all (fun q =>
    match p.1, q.1 with
    | some t1, some t2 => t1 != t2 || p.2 == q.2
    | _, _ => true))

end SteamDocs

open SteamDocs

/-- Claim C1: every top-level construct in src/docs/leaderboards.js and
src/docs/networking.js is a documentation comment block, a line comment or a
blank line; the files contain no function definitions, executable statements,
control flow or data-structure declarations. -/
theorem C1_docs_are_comments_only :
  commentsOnly leaderboards_lines = true ∧ commentsOnly networking_lines = true := by
  refine ⟨?_, ?_⟩ <;> decide

/-- Claim C2: every name referenced by a `ref` tag in either documentation
file is defined by a matching `func`, `const` or `struct` tag somewhere in the
repository. -/
theorem C2_refs_resolve :
  ((refNames leaderboards_lines ++ refNames networking_lines).all (fun r =>
    (defNames leaderboards_lines ++ defNames networking_lines).contains r)) = true := by
  decide

/-- Claim C3: each of the nine leaderboard request or query functions documents
the sentinel value -1 on failure, and each of the seven asynchronous ones
additionally documents that the async event is not triggered on failure. -/
theorem C3_failure_sentinels :
  ((["steam_upload_score", "steam_upload_score_ext", "steam_upload_score_buffer",
     "steam_upload_score_buffer_ext", "steam_download_scores",
     "steam_download_scores_around_user", "steam_download_friends_scores"] : List String).all
    (fun n =>
      mentions (funcBlock n leaderboards_lines) "fails for any reason it will return -1" &&
      mentions (funcBlock n leaderboards_lines) "event will not be triggered")) = true ∧
  ((["steam_get_leaderboard_entry_count",
     "steam_get_leaderboard_display_type"] : List String).all
    (fun n =>
      mentions (funcBlock n leaderboards_lines) "returns -1 in case something went wrong")) = true := by
  refine ⟨?_, ?_⟩ <;> decide

/-- Claim C4 fails as stated: steam_net_set_auto_accept_p2p_sessions declares a
steam event block but declares no `returns` value and no request-identifier
payload member. -/
theorem C4_counterexample :
  hasTag "event" (funcBlock "steam_net_set_auto_accept_p2p_sessions" networking_lines) = true ∧
  hasTag "returns" (funcBlock "steam_net_set_auto_accept_p2p_sessions" networking_lines) = false ∧
  eventReqIdOK (funcBlock "steam_net_set_auto_accept_p2p_sessions" networking_lines) = false := by
  refine ⟨?_, ?_, ?_⟩ <;> decide

/-- Claim C4 (amended): every function declaring a steam event block, except
steam_net_set_auto_accept_p2p_sessions, also declares a `returns` value and an
`id` or `post_id` payload member described as the asynchronous request ID;
steam_net_set_auto_accept_p2p_sessions is the sole exception. -/
theorem C4_event_functions_return_request_id :
  eventPattern leaderboards_lines = true ∧
  ((funcNames networking_lines).all (fun n =>
    !(hasTag "event" (funcBlock n networking_lines)) ||
    n == "steam_net_set_auto_accept_p2p_sessions")) = true := by
  refine ⟨?_, ?_⟩ <;> decide

/-- Claim C5: steam_create_leaderboard takes exactly a string name, a
LeaderboardSortOrder constant and a LeaderboardDisplayType constant, returns a
real request identifier, and its "create_leaderboard" event delivers that
request ID as the real-valued `id` member. -/
theorem C5_create_leaderboard_signature :
  paramPairs (funcBlock "steam_create_leaderboard" leaderboards_lines) =
    [("string", "lb_name"), ("constant.LeaderboardSortOrder", "sort_order"),
     ("constant.LeaderboardDisplayType", "display_type")] ∧
  returnsAnnot (funcBlock "steam_create_leaderboard" leaderboards_lines) = some "real" ∧
  eventTypeOf (funcBlock "steam_create_leaderboard" leaderboards_lines) =
    some "create_leaderboard" ∧
  ((memberTriples (funcBlock "steam_create_leaderboard" leaderboards_lines)).any (fun t =>
    t.1 == "real" && t.2.1 == "id" && t.2.2 == "The asynchronous request ID")) = true := by
  refine ⟨?_, ?_, ?_, ?_⟩ <;> decide

/-- Claim C6: steam_net_packet_send takes exactly an int64 user identifier, a
buffer, an optional size defaulting to -1 (the entire buffer) and an optional
PacketType whose default is set by steam_net_packet_set_type, and returns a
boolean success indicator. -/
theorem C6_packet_send_signature :
  paramPairs (funcBlock "steam_net_packet_send" networking_lines) =
    [("int64", "user_id"), ("real", "buffer"), ("real", "size"),
     ("const.PacketType", "packet_type")] ∧
  returnsAnnot (funcBlock "steam_net_packet_send" networking_lines) = some "boolean" ∧
  descContains (paramDesc (funcBlock "steam_net_packet_send" networking_lines) "size")
    "(default -1, sends the entire buffer)" = true ∧
  descContains (paramDesc (funcBlock "steam_net_packet_send" networking_lines) "size")
    "OPTIONAL" = true ∧
  descContains (paramDesc (funcBlock "steam_net_packet_send" networking_lines) "packet_type")
    "OPTIONAL" = true ∧
  mentions (funcBlock "steam_net_packet_send" networking_lines)
    "steam_net_packet_set_type" = true := by
  refine ⟨?_, ?_, ?_, ?_, ?_, ?_⟩ <;> decide

/-- Claim C7 fails as stated: the tag `desc` is used throughout both files but
is not among the seven tags enumerated by the claim. -/
theorem C7_counterexample :
  (allTags leaderboards_lines).contains "desc" = true ∧
  (["func", "param", "returns", "event", "const", "struct",
    "module"] : List String).contains "desc" = false := by
  refine ⟨?_, ?_⟩ <;> decide

/-- Claim C7 (amended): every documentation tag used anywhere in the two files
is one of the seven enumerated tags, their five `_end` closers, or one of the
further tags `desc`, `member`, `example`, `title`, `ref`, `section_func`,
`section_struct`, `section_const`, `section_end`. -/
theorem C7_tag_vocabulary :
  ((allTags leaderboards_lines ++ allTags networking_lines).all (fun t =>
    (["func", "func_end", "param", "returns", "event", "event_end", "const",
      "const_end", "struct", "struct_end", "module", "module_end", "desc",
      "member", "example", "title", "ref", "section_func", "section_struct",
      "section_const", "section_end"] : List String).contains t)) = true := by
  decide

/-- Claim C8: any two function blocks documenting the same event type declare
identical payload member lists with identical types; in particular the four
"leaderboard_upload" events declare (post_id, event_type, lb_name, num_entries,
success, updated, score) and the three "leaderboard_download" events declare
(id, event_type, status, lb_name, num_entries, entries). -/
theorem C8_event_payloads_consistent :
  eventTypesConsistent = true ∧
  ((["steam_upload_score", "steam_upload_score_ext", "steam_upload_score_buffer",
     "steam_upload_score_buffer_ext"] : List String).all (fun n =>
    eventTypeOf (funcBlock n leaderboards_lines) == some "leaderboard_upload" &&
    memberPairs (funcBlock n leaderboards_lines) ==
      [("real", "post_id"), ("string", "event_type"), ("string", "lb_name"),
       ("real", "num_entries"), ("boolean", "success"), ("boolean", "updated"),
       ("real", "score")])) = true ∧
  ((["steam_download_scores", "steam_download_scores_around_user",
     "steam_download_friends_scores"] : List String).all (fun n =>
    eventTypeOf (funcBlock n leaderboards_lines) == some "leaderboard_download" &&
    memberPairs (funcBlock n leaderboards_lines) ==
      [("real", "id"), ("string", "event_type"), ("int64", "status"),
       ("string", "lb_name"), ("real", "num_entries"),
       ("string", "entries")])) = true := by
  refine ⟨?_, ?_, ?_⟩ <;> decide

/-- Claim C9: in both files every top-level block opened by a `func`, `const`,
`struct` or `module` tag is closed by its matching closer before any other
top-level block opens, and every event region or module section opened inside
a block is closed inside that same block. -/
theorem C9_blocks_well_nested :
  nestOK leaderboards_lines = true ∧ nestOK networking_lines = true := by
  refine ⟨?_, ?_⟩ <;> decide

/-- Claim C10: per file, the set of names referenced from the `section_func`
sections of the module block equals the set of names documented by `func`
blocks, with 10 functions for leaderboards and 9 for networking. -/
theorem C10_module_refs_match_funcs :
  sameSet (funcSecRefs leaderboards_lines) (funcNames leaderboards_lines) = true ∧
  sameSet (funcSecRefs networking_lines) (funcNames networking_lines) = true ∧
  (funcNames leaderboards_lines).length = 10 ∧
  (funcNames networking_lines).length = 9 := by
  refine ⟨?_, ?_, ?_, ?_⟩ <;> decide
